import Mathlib

/-!
Verification development for the trello-task-manager task-service layer.

The definitions below are a shallow embedding of the Python sources:
`trello_task_service.py` (card-board backend), `jira_task_service.py`
(issue-tracker backend), `task_service.py` (domain model and error
taxonomy) and `service_config.py` (configuration validation).
Remote state (cards on a board list, issues in a project) is passed
explicitly; each remote mutation becomes a pure state transformation,
and each raised exception becomes an `Except` error value.
-/

namespace TrelloTM

/-- Error taxonomy from `task_service.py` and `service_config.py`.
Each constructor carries the same data as the Python exception class. -/
inductive TaskServiceErr where
  | taskNotFound (projectName title : String)
  | checklistNotFound (checklistName title : String)
  | checklistItemNotFound (itemName title : String)
  | noAvailableTasks (projectName : String)
  | invalidTaskStatus (status : String)
  | connectionError (backendName details : String)
deriving DecidableEq, Repr

/-- Configuration errors from `service_config.py`. -/
inductive ConfigErr where
  | missingConfiguration (serviceName : String) (missingKeys : List String)
  | invalidConfiguration (serviceName key reason : String)
deriving DecidableEq, Repr

/-- A Trello label (`py-trello` Label object): identified by id, with a name. -/
structure Label where
  id : String
  name : String
deriving DecidableEq, Repr

/-- A raw Trello checklist item as the service reads it: a dict with
`name` and `checked` fields (`trello_task_service.py` line 313). -/
structure TChecklistItem where
  name : String
  checked : Bool
deriving DecidableEq, Repr

/-- A Trello checklist attached to a card: a name and an ordered item list. -/
structure TChecklist where
  name : String
  items : List TChecklistItem
deriving DecidableEq, Repr

/-- A Trello card as the service reads it after `card.fetch()`:
name (the task title), description, label list, due-complete flag and
checklists. -/
structure Card where
  id : String
  name : String
  description : String
  labels : List Label
  is_due_complete : Bool
  checklists : List TChecklist
deriving DecidableEq, Repr

/-- `WIP_LABEL_NAME` constant of `trello_task_service.py`. -/
def WIP_LABEL_NAME : String := "WIP"

/-- `DEFAULT_CHECKLIST_NAME` constant of `trello_task_service.py`. -/
def DEFAULT_CHECKLIST_NAME : String := "Checklist"

/-- The WIP test of `TrelloTaskService._get_task_status` (lines 351-353):
`has_wip = any(label.id == wip_label.id for label in card.labels)` when a
WIP label is configured, `False` otherwise. -/
def trelloHasWip (card : Card) (wipLabel : Option Label) : Bool :=
  match wipLabel with
  | some wl => card.labels.any (fun lab => lab.id = wl.id)
  | none => false

/-- `TrelloTaskService._get_task_status` (lines 349-362): done if the card
is due-complete, else wip if the WIP label is attached, else todo. -/
def trelloGetTaskStatus (card : Card) (wipLabel : Option Label) : String :=
  if card.is_due_complete then "done"
  else if trelloHasWip card wipLabel then "wip"
  else "todo"

/-- Python `str.lower()` as the services use it on ASCII status names:
lowercase every character of the string. -/
def strLower (s : String) : String := ⟨s.data.map Char.toLower⟩

/-- Python `str.startswith(p)`: the first `len(p)` characters of the
string are exactly `p`. -/
def strStartsWith (s p : String) : Bool := s.data.take p.data.length = p.data

/-- The JQL `summary ~ "title"` text match as the issue-tracker queries
use it, modelled as substring containment: some contiguous run of the
summary's characters is exactly the searched text. -/
def strContains (haystack needle : String) : Bool :=
  (List.range (haystack.data.length + 1)).any
    (fun i => (haystack.data.drop i).take needle.data.length = needle.data)

/-- `JiraTaskService._map_jira_status_to_internal` (lines 533-536):
lowercase the workflow-state name and look it up in the map from
lowercase JIRA names to internal names, defaulting to `"todo"`. -/
def mapJiraStatusToInternal (jiraStatus : String) : String :=
  let s := strLower jiraStatus
  if s = "to do" then "todo"
  else if s = "in progress" then "wip"
  else if s = "done" then "done"
  else "todo"

/-- `TrelloTaskService.update_task_description` (lines 101-122), the
description computation: with a non-empty existing description the new
text is appended after a timestamped separator; otherwise the new text
is placed under a timestamped creation header. -/
def trelloUpdatedDescription (existingDescription timestamp description : String) : String :=
  if existingDescription ≠ "" then
    existingDescription ++ "\n\n--- Updated on " ++ timestamp ++ " ---\n" ++ description
  else
    "--- Created on " ++ timestamp ++ " ---\n" ++ description

/-- The card-level effect of `TrelloTaskService.update_task_description`:
`card.set_description(updated_description)`. -/
def trelloUpdateTaskDescription (card : Card) (timestamp description : String) : Card :=
  { card with description := trelloUpdatedDescription card.description timestamp description }

/-- `TrelloTaskService._find_next_unchecked_item` loop body (lines 309-314):
scan the checklists; inside a checklist named `DEFAULT_CHECKLIST_NAME`
return the first item whose `checked` field is false; if that checklist
has no unchecked item the outer loop continues with later checklists. -/
def findNextUncheckedAux : List TChecklist → Option TChecklistItem
  | [] => none
  | cl :: rest =>
    if cl.name = DEFAULT_CHECKLIST_NAME then
      match cl.items.find? (fun it => !it.checked) with
      | some it => some it
      | none => findNextUncheckedAux rest
    else findNextUncheckedAux rest

/-- `TrelloTaskService._find_next_unchecked_item` (lines 307-317): when the
scan returns no item the method raises `ChecklistNotFoundError`. -/
def trelloFindNextUncheckedItem (card : Card) (title : String) :
    Except TaskServiceErr TChecklistItem :=
  match findNextUncheckedAux card.checklists with
  | some it => .ok it
  | none => .error (.checklistNotFound DEFAULT_CHECKLIST_NAME title)

/-- `py-trello` `Checklist.set_checklist_item(name, checked)` as used by
`complete_checklist_item`: set the `checked` field of the first item with
the given name. -/
def setChecklistItemAux : List TChecklistItem → String → Bool → List TChecklistItem
  | [], _, _ => []
  | it :: rest, itemName, v =>
    if it.name = itemName then { it with checked := v } :: rest
    else it :: setChecklistItemAux rest itemName v

/-- Loop of `TrelloTaskService.complete_checklist_item` (lines 157-163):
on the first checklist named `DEFAULT_CHECKLIST_NAME` call
`set_checklist_item(checklist_item_name, True)` and return; the Bool
records whether such a checklist was found. -/
def completeChecklistItemAux : List TChecklist → String → List TChecklist × Bool
  | [], _ => ([], false)
  | cl :: rest, itemName =>
    if cl.name = DEFAULT_CHECKLIST_NAME then
      ({ cl with items := setChecklistItemAux cl.items itemName true } :: rest, true)
    else
      let r := completeChecklistItemAux rest itemName
      (cl :: r.1, r.2)

/-- `TrelloTaskService.complete_checklist_item` (lines 152-170): complete
the named item in the well-known checklist, or raise
`ChecklistNotFoundError` when no checklist of that name exists. -/
def trelloCompleteChecklistItem (card : Card) (title itemName : String) :
    Except TaskServiceErr Card :=
  let r := completeChecklistItemAux card.checklists itemName
  if r.2 then .ok { card with checklists := r.1 }
  else .error (.checklistNotFound DEFAULT_CHECKLIST_NAME title)

/-- Task summary dict built by `TrelloTaskService._create_task_dict`
(lines 345-347). -/
structure TaskDict where
  name : String
  description : String
  status : String
  id : String
deriving DecidableEq, Repr

/-- `TrelloTaskService._create_task_dict` (lines 345-347). -/
def createTaskDict (card : Card) (status : String) : TaskDict :=
  { name := card.name, description := card.description, status := status, id := card.id }

/-- `TrelloTaskService._should_include_task` (lines 364-367): the filter
table `{"all": True, "wip": status == "wip", "done": status == "done"}`
with default `False` for unknown filters. -/
def shouldIncludeTask (status filterType : String) : Bool :=
  if filterType = "all" then true
  else if filterType = "wip" then status = "wip"
  else if filterType = "done" then status = "done"
  else false

/-- Loop of `TrelloTaskService.get_tasks` (lines 194-199): derive each
card status and keep the cards selected by `_should_include_task`. -/
def trelloFilterTasks (cards : List Card) (wipLabel : Option Label) (filterType : String) :
    List TaskDict :=
  match cards with
  | [] => []
  | c :: cs =>
    let status := trelloGetTaskStatus c wipLabel
    if shouldIncludeTask status filterType then
      createTaskDict c status :: trelloFilterTasks cs wipLabel filterType
    else trelloFilterTasks cs wipLabel filterType

/-- `TrelloTaskService.get_tasks` (lines 183-205) result list: a missing
board list yields the empty list, otherwise the filtered card dicts. -/
def trelloGetTasks (boardList : Option (List Card)) (wipLabel : Option Label)
    (filterType : String) : List TaskDict :=
  match boardList with
  | none => []
  | some cards => trelloFilterTasks cards wipLabel filterType

/-- `TrelloTaskService._find_next_available_card` scan (lines 288-292):
first card carrying no WIP label and not due-complete, in list order. -/
def trelloFindNextAvailableCard (cards : List Card) (wipLabel : Label) : Option Card :=
  cards.find? (fun c => !(c.labels.any (fun l => l.id = wipLabel.id)) && !c.is_due_complete)

/-- `TrelloTaskService.get_next_task` (lines 61-72 with helpers 281-293):
a missing list raises `NoAvailableTasksError`, as does an exhausted scan. -/
def trelloGetNextTask (boardList : Option (List Card)) (wipLabel : Label)
    (projectName : String) : Except TaskServiceErr Card :=
  match boardList with
  | none => .error (.noAvailableTasks projectName)
  | some cards =>
    match trelloFindNextAvailableCard cards wipLabel with
    | some c => .ok c
    | none => .error (.noAvailableTasks projectName)

/-- `card.remove_label(l)`: the card keeps only its labels with a
different id. -/
def removeLabel (card : Card) (l : Label) : Card :=
  { card with labels := card.labels.filter (fun x => !(x.id = l.id)) }

/-- `card.add_label(l)`: append the label. -/
def addLabel (card : Card) (l : Label) : Card :=
  { card with labels := card.labels ++ [l] }

/-- `card.set_due_complete(v)`. -/
def setDueComplete (card : Card) (v : Bool) : Card :=
  { card with is_due_complete := v }

/-- Body of `TrelloTaskService.set_task_status` after validation
(lines 227-243): remove the WIP label if attached, clear the
due-complete flag if set, then apply the requested status. -/
def trelloSetTaskStatusCore (card : Card) (wipLabel : Option Label) (status : String) : Card :=
  let card1 :=
    match wipLabel with
    | some wl => if card.labels.any (fun l => l.id = wl.id) then removeLabel card wl else card
    | none => card
  let card2 := if card1.is_due_complete then setDueComplete card1 false else card1
  if status = "wip" then
    match wipLabel with
    | some wl => addLabel card2 wl
    | none => card2
  else if status = "done" then setDueComplete card2 true
  else card2

/-- `TrelloTaskService.set_task_status` (lines 221-249): reject a status
outside the three-value enum before touching the card. -/
def trelloSetTaskStatus (card : Card) (wipLabel : Option Label) (status : String) :
    Except TaskServiceErr Card :=
  if status ∉ (["todo", "wip", "done"] : List String) then .error (.invalidTaskStatus status)
  else .ok (trelloSetTaskStatusCore card wipLabel status)

/-- Final card state after `TrelloTaskService.set_task_status`: a raised
error leaves the card as it was. -/
def trelloApplySetTaskStatus (card : Card) (wipLabel : Option Label) (status : String) : Card :=
  match trelloSetTaskStatus card wipLabel status with
  | .ok c => c
  | .error _ => card

/-- A node of a JIRA ADF (Atlassian Document Format) description value,
as the service reads and writes it: a `type` tag, a `text` payload
(empty when the node has none, matching `item.get("text", "")`) and
child `content`. -/
inductive ADFNode where
  | node (typ : String) (text : String) (content : List ADFNode)

/-- The `type` field of an ADF node. -/
def ADFNode.typ : ADFNode → String
  | .node t _ _ => t

/-- The `text` field of an ADF node. -/
def ADFNode.text : ADFNode → String
  | .node _ s _ => s

/-- The `content` field of an ADF node. -/
def ADFNode.content : ADFNode → List ADFNode
  | .node _ _ c => c

/-- The description payload both `add_task` (lines 139-143) and
`update_task_description` (lines 256-264) of `jira_task_service.py`
build: a doc holding one paragraph holding one text node with exactly
the given text. -/
def adfDescription (description : String) : ADFNode :=
  .node "doc" "" [.node "paragraph" "" [.node "text" description []]]

/-- Inner loop of `JiraTaskService._extract_description_text`
(lines 508-513): the texts of the `text`-typed children of a paragraph. -/
def textPartsOfParagraph (items : List ADFNode) : List String :=
  (items.filter (fun it => it.typ = "text")).map (fun it => it.text)

/-- `JiraTaskService._extract_description_text` (lines 500-515): collect
the text parts of every `paragraph`-typed child of the doc, joined by
single spaces. -/
def extractDescriptionText (d : ADFNode) : String :=
  String.intercalate " "
    (((d.content.filter (fun it => it.typ = "paragraph")).map
      (fun it => textPartsOfParagraph it.content)).flatten)

/-- A JIRA issue as the service reads it from a search result: key,
summary (the task title), ADF description and workflow-state name. -/
structure JiraIssue where
  key : String
  summary : String
  description : ADFNode
  statusName : String

/-- JQL status comparison as the remote JIRA evaluates the queries the
service issues (`status = "To Do"` etc.): status names match
case-insensitively. -/
def jqlStatusEq (issueStatusName target : String) : Bool :=
  strLower issueStatusName = strLower target

/-- `JiraTaskService.get_next_task` (lines 158-178): the remote runs
`status = "To Do" ORDER BY priority DESC, created ASC` with one result.
The issue list stands for the project issues already in
priority-then-creation order; with no match the method raises
`NoAvailableTasksError`. -/
def jiraGetNextTask (issues : List JiraIssue) (projectName : String) :
    Except TaskServiceErr JiraIssue :=
  match issues.find? (fun i => jqlStatusEq i.statusName "To Do") with
  | some i => .ok i
  | none => .error (.noAvailableTasks projectName)

/-- `JiraTaskService.update_task_description` (lines 239-273): the PUT
payload replaces the description field with the ADF wrapping of the new
text only; the method never reads the prior description. -/
def jiraUpdateTaskDescription (issue : JiraIssue) (description : String) : JiraIssue :=
  { issue with description := adfDescription description }

/-- Task summary dict built by `JiraTaskService.get_tasks` (lines 408-414). -/
structure JiraTaskDict where
  title : String
  description : String
  status : String
  id : String
deriving DecidableEq, Repr

/-- The JQL filter `JiraTaskService.get_tasks` sends (lines 394-401),
evaluated by the remote over the project issues: `wip` keeps issues in
state `In Progress`, `done` keeps issues in state `Done`, anything else
keeps all. `get_tasks` calls `_search_issues(jql)` (line 404) without a
`max_results` argument, so the request carries the default
`maxResults = 50` (line 101) and the remote returns at most the first
50 matching issues. -/
def jiraSearchByFilter (issues : List JiraIssue) (filterType : String) : List JiraIssue :=
  if filterType = "wip" then
    (issues.filter (fun i => jqlStatusEq i.statusName "In Progress")).take 50
  else if filterType = "done" then
    (issues.filter (fun i => jqlStatusEq i.statusName "Done")).take 50
  else issues.take 50

/-- `JiraTaskService.get_tasks` (lines 390-419) result list: map each
returned issue to its summary dict. -/
def jiraGetTasks (issues : List JiraIssue) (filterType : String) : List JiraTaskDict :=
  (jiraSearchByFilter issues filterType).map (fun i =>
    { title := i.summary, description := extractDescriptionText i.description,
      status := mapJiraStatusToInternal i.statusName, id := i.key })

/-- A JIRA subtask standing for a checklist item (summary = item name). -/
structure JiraSubtask where
  key : String
  summary : String
  statusName : String
deriving DecidableEq, Repr

/-- Checklist item dict returned by `get_next_unchecked_checklist_item`
of `jira_task_service.py` (lines 379-383). -/
structure ChecklistItemDict where
  name : String
  checked : Bool
  id : String
deriving DecidableEq, Repr

/-- `JiraTaskService.get_next_unchecked_checklist_item` (lines 353-388):
the remote runs `parent = key AND status != "Done" ORDER BY created ASC`
with one result over the subtasks (given in creation order); with no
match the method raises `ChecklistItemNotFoundError("none", title)`. -/
def jiraGetNextUncheckedChecklistItem (subtasks : List JiraSubtask) (title : String) :
    Except TaskServiceErr ChecklistItemDict :=
  match subtasks.find? (fun st => !(jqlStatusEq st.statusName "Done")) with
  | some st => .ok { name := st.summary, checked := false, id := st.key }
  | none => .error (.checklistItemNotFound "none" title)

/-- An available workflow transition of an issue, as
`JiraTaskService._get_issue_transitions` reads it: id and target-state
name (`transition["to"]["name"]`). -/
structure JiraTransition where
  id : String
  toName : String
deriving DecidableEq, Repr

/-- `JiraTaskService._find_transition_id` match (lines 120-128): first
transition whose target-state name equals the target case-insensitively. -/
def findTransition (transitions : List JiraTransition) (targetStatus : String) :
    Option JiraTransition :=
  transitions.find? (fun t => strLower t.toName = strLower targetStatus)

/-- The internal-to-JIRA status map of `JiraTaskService.set_task_status`
(line 450); only reached for the three validated statuses. -/
def jiraSetTaskStatusMap (status : String) : String :=
  if status = "todo" then "To Do"
  else if status = "wip" then "In Progress"
  else "Done"

/-- `JiraTaskService.set_task_status` (lines 444-478): validate the
status, then look up the transition to the mapped target among the
transitions available from the issue's current state (`trans`) and apply
it; a missing transition raises `TaskServiceConnectionError`. Applying a
transition puts the issue in the transition's target state. -/
def jiraSetTaskStatus (trans : String → List JiraTransition) (issue : JiraIssue)
    (status : String) : Except TaskServiceErr JiraIssue :=
  if status ∉ (["todo", "wip", "done"] : List String) then .error (.invalidTaskStatus status)
  else
    let targetStatus := jiraSetTaskStatusMap status
    match findTransition (trans issue.statusName) targetStatus with
    | some t => .ok { issue with statusName := t.toName }
    | none =>
      .error (.connectionError "JIRA"
        ("No transition found to status " ++ targetStatus ++ " for issue " ++ issue.key))

/-- Final issue state after `JiraTaskService.set_task_status`: a raised
error leaves the issue as it was. -/
def jiraApplySetTaskStatus (trans : String → List JiraTransition) (issue : JiraIssue)
    (status : String) : JiraIssue :=
  match jiraSetTaskStatus trans issue status with
  | .ok i => i
  | .error _ => issue

/-- `JiraTaskService.set_task_status` including its task lookup
(lines 444-478): after validation the issue is found with
`project = "KEY" AND summary ~ "title"` over the project's issues —
subtasks included, since the query carries no issuetype restriction —
taking the first match (`max_results=1`, `issues[0]`); the found issue
is then transitioned to the mapped target state. An empty search raises
`TaskNotFoundError`. -/
def jiraSetTaskStatusByTitle (trans : String → List JiraTransition)
    (issues : List JiraIssue) (projectName title status : String) :
    Except TaskServiceErr JiraIssue :=
  if status ∉ (["todo", "wip", "done"] : List String) then .error (.invalidTaskStatus status)
  else
    match issues.find? (fun i => strContains i.summary title) with
    | none => .error (.taskNotFound projectName title)
    | some issue =>
      let targetStatus := jiraSetTaskStatusMap status
      match findTransition (trans issue.statusName) targetStatus with
      | some t => .ok { issue with statusName := t.toName }
      | none =>
        .error (.connectionError "JIRA"
          ("No transition found to status " ++ targetStatus ++ " for issue " ++ issue.key))

/-- `JiraTaskService.complete_checklist_item` subtask step
(lines 329-344): find the first subtask of the parent whose summary
matches the item name (`parent = "KEY" AND summary ~ "item"`,
`max_results=1`) and transition it to "Done"; no match raises
`ChecklistItemNotFoundError`. -/
def jiraCompleteChecklistItem (trans : String → List JiraTransition)
    (subtasks : List JiraSubtask) (title itemName : String) :
    Except TaskServiceErr JiraSubtask :=
  match subtasks.find? (fun st => strContains st.summary itemName) with
  | none => .error (.checklistItemNotFound itemName title)
  | some st =>
    match findTransition (trans st.statusName) "Done" with
    | some t => .ok { st with statusName := t.toName }
    | none =>
      .error (.connectionError "JIRA"
        ("No transition found to status Done for issue " ++ st.key))

/-- The transition set of the default JIRA workflow, offered from every
state: one transition to each of the three canonical statuses. -/
def jiraDefaultTransitions : List JiraTransition :=
  [{ id := "11", toName := "To Do" }, { id := "21", toName := "In Progress" },
   { id := "31", toName := "Done" }]

/-- Domain-model checklist item (`task_service.py` lines 85-93). -/
structure DChecklistItem where
  name : String
  checked : Bool
  id : Option String
deriving DecidableEq, Repr

/-- Domain-model checklist (`task_service.py` lines 96-104). -/
structure DChecklist where
  name : String
  items : List DChecklistItem
  id : Option String
deriving DecidableEq, Repr

/-- `Checklist.add_item` (lines 106-110): append a fresh unchecked item. -/
def DChecklist.add_item (cl : DChecklist) (itemName : String) : DChecklist :=
  { cl with items := cl.items ++ [{ name := itemName, checked := false, id := none }] }

/-- Loop of `Checklist.complete_item` (lines 112-118): set `checked` on
the first item with the given name; the Bool is the return value. -/
def completeItemAux : List DChecklistItem → String → List DChecklistItem × Bool
  | [], _ => ([], false)
  | it :: rest, itemName =>
    if it.name = itemName then ({ it with checked := true } :: rest, true)
    else
      let r := completeItemAux rest itemName
      (it :: r.1, r.2)

/-- `Checklist.complete_item` (lines 112-118). -/
def DChecklist.complete_item (cl : DChecklist) (itemName : String) : DChecklist × Bool :=
  let r := completeItemAux cl.items itemName
  ({ cl with items := r.1 }, r.2)

/-- `Checklist.get_next_unchecked_item` (lines 120-125). -/
def DChecklist.get_next_unchecked_item (cl : DChecklist) : Option DChecklistItem :=
  cl.items.find? (fun it => !it.checked)

/-- `TrelloConfig` fields (`service_config.py` lines 82-89). -/
structure TrelloConfig where
  api_key : String
  api_token : String
  board_name : String
  service_name : String := "trello"
deriving DecidableEq, Repr

/-- The `missing_keys` list `TrelloConfig.validate` accumulates
(lines 93-100), in source order. -/
def trelloMissingKeys (c : TrelloConfig) : List String :=
  (if c.api_key = "" then ["api_key"] else [])
    ++ (if c.api_token = "" then ["api_token"] else [])
    ++ (if c.board_name = "" then ["board_name"] else [])

/-- `TrelloConfig.validate` (lines 91-111): missing keys first, then the
length checks on `api_key` and `api_token`. -/
def TrelloConfig.validate (c : TrelloConfig) : Except ConfigErr Unit :=
  let missingKeys := trelloMissingKeys c
  if missingKeys ≠ [] then .error (.missingConfiguration c.service_name missingKeys)
  else if c.api_key.length < 10 then
    .error (.invalidConfiguration c.service_name "api_key" "API key too short")
  else if c.api_token.length < 10 then
    .error (.invalidConfiguration c.service_name "api_token" "API token too short")
  else .ok ()

/-- `JiraConfig` fields (`service_config.py` lines 147-155). -/
structure JiraConfig where
  server_url : String
  username : String
  api_token : String
  project_key : String
  service_name : String := "jira"
deriving DecidableEq, Repr

/-- The `missing_keys` list `JiraConfig.validate` accumulates
(lines 159-168), in source order. -/
def jiraMissingKeys (c : JiraConfig) : List String :=
  (if c.server_url = "" then ["server_url"] else [])
    ++ (if c.username = "" then ["username"] else [])
    ++ (if c.api_token = "" then ["api_token"] else [])
    ++ (if c.project_key = "" then ["project_key"] else [])

/-- `JiraConfig.validate` (lines 157-179): missing keys first, then the
URL-scheme check and the `project_key` length check; it applies no
length check to `username` or `api_token`. -/
def JiraConfig.validate (c : JiraConfig) : Except ConfigErr Unit :=
  let missingKeys := jiraMissingKeys c
  if missingKeys ≠ [] then .error (.missingConfiguration c.service_name missingKeys)
  else if !(strStartsWith c.server_url "http://" || strStartsWith c.server_url "https://") then
    .error (.invalidConfiguration c.service_name "server_url" "Must start with http:// or https://")
  else if c.project_key.length < 2 then
    .error (.invalidConfiguration c.service_name "project_key" "Project key too short")
  else .ok ()

/-- Claim C1: for every task in either backend the derived status honors
the priority mapping: completion marker present gives "done" regardless
of the WIP marker; otherwise WIP marker/state present gives "wip";
otherwise "todo". In the card-board backend the completion marker is the
due-complete flag and the WIP marker is the WIP label; in the issue
tracker the markers are the workflow-state name "Done" / "In Progress"
(compared lowercased). -/
theorem c1_status_derivation_priority (card : Card) (wipLabel : Option Label) (s : String) :
    (card.is_due_complete = true → trelloGetTaskStatus card wipLabel = "done")
    ∧ (card.is_due_complete = false → trelloHasWip card wipLabel = true →
        trelloGetTaskStatus card wipLabel = "wip")
    ∧ (card.is_due_complete = false → trelloHasWip card wipLabel = false →
        trelloGetTaskStatus card wipLabel = "todo")
    ∧ (strLower s = "done" → mapJiraStatusToInternal s = "done")
    ∧ (strLower s ≠ "done" → strLower s = "in progress" → mapJiraStatusToInternal s = "wip")
    ∧ (strLower s ≠ "done" → strLower s ≠ "in progress" →
        mapJiraStatusToInternal s = "todo") := by
  refine ⟨fun h => ?_, fun h1 h2 => ?_, fun h1 h2 => ?_, fun h => ?_,
    fun h1 h2 => ?_, fun h1 h2 => ?_⟩
  · simp [trelloGetTaskStatus, h]
  · simp [trelloGetTaskStatus, h1, h2]
  · simp [trelloGetTaskStatus, h1, h2]
  · simp [mapJiraStatusToInternal, h]
  · simp [mapJiraStatusToInternal, h2]
  · by_cases h3 : strLower s = "to do"
    · simp [mapJiraStatusToInternal, h3]
    · simp [mapJiraStatusToInternal, h1, h2, h3]

/-- Witness for C1 at concrete inputs: a due-complete card carrying the
WIP label derives "done" (done overrides wip), a non-complete card with
the WIP label derives "wip", and the workflow state "DONE" maps to
"done". -/
theorem c1_status_derivation_priority_witness :
    trelloGetTaskStatus ⟨"c1", "T", "", [⟨"L1", "WIP"⟩], true, []⟩ (some ⟨"L1", "WIP"⟩) = "done"
    ∧ trelloGetTaskStatus ⟨"c2", "T", "", [⟨"L1", "WIP"⟩], false, []⟩ (some ⟨"L1", "WIP"⟩) = "wip"
    ∧ mapJiraStatusToInternal "DONE" = "done" :=
  ⟨(c1_status_derivation_priority ⟨"c1", "T", "", [⟨"L1", "WIP"⟩], true, []⟩
      (some ⟨"L1", "WIP"⟩) "DONE").1 rfl,
   (c1_status_derivation_priority ⟨"c2", "T", "", [⟨"L1", "WIP"⟩], false, []⟩
      (some ⟨"L1", "WIP"⟩) "DONE").2.1 rfl (by decide),
   (c1_status_derivation_priority ⟨"c1", "T", "", [], true, []⟩ none "DONE").2.2.2.1
      (by decide)⟩

/-- Claim C10: the issue-tracker status mapping is total and
case-insensitive: every workflow-state name maps into the three-value
enum, with "to do", "in progress" and "done" (after lowercasing)
mapping to their counterparts and every other name mapping to "todo". -/
theorem c10_jira_status_map_total (s : String) :
    mapJiraStatusToInternal s ∈ (["todo", "wip", "done"] : List String)
    ∧ (strLower s = "to do" → mapJiraStatusToInternal s = "todo")
    ∧ (strLower s = "in progress" → mapJiraStatusToInternal s = "wip")
    ∧ (strLower s = "done" → mapJiraStatusToInternal s = "done")
    ∧ (strLower s ≠ "to do" → strLower s ≠ "in progress" → strLower s ≠ "done" →
        mapJiraStatusToInternal s = "todo") := by
  refine ⟨?_, fun h => ?_, fun h => ?_, fun h => ?_, fun h1 h2 h3 => ?_⟩
  · by_cases hA : strLower s = "to do"
    · simp [mapJiraStatusToInternal, hA]
    · by_cases hB : strLower s = "in progress"
      · simp [mapJiraStatusToInternal, hA, hB]
      · by_cases hC : strLower s = "done"
        · simp [mapJiraStatusToInternal, hA, hB, hC]
        · simp [mapJiraStatusToInternal, hA, hB, hC]
  · simp [mapJiraStatusToInternal, h]
  · simp [mapJiraStatusToInternal, h]
  · simp [mapJiraStatusToInternal, h]
  · simp [mapJiraStatusToInternal, h1, h2, h3]

/-- Witness for C10 at concrete inputs: mixed-case recognized names map
to their counterparts and an unrecognized name maps to "todo". -/
theorem c10_jira_status_map_total_witness :
    mapJiraStatusToInternal "In PROGRESS" = "wip"
    ∧ mapJiraStatusToInternal "Blocked" = "todo" :=
  ⟨(c10_jira_status_map_total "In PROGRESS").2.2.1 (by decide),
   (c10_jira_status_map_total "Blocked").2.2.2.2 (by decide) (by decide) (by decide)⟩

/-- Claim C5: for every status string outside the three-value enum,
set_task_status fails with InvalidTaskStatus in both backends, and the
task is left unmodified: the validation precedes every marker change and
every remote call. -/
theorem c5_invalid_status_rejected (card : Card) (wipLabel : Option Label)
    (trans : String → List JiraTransition) (issue : JiraIssue) (status : String)
    (h : status ∉ (["todo", "wip", "done"] : List String)) :
    trelloSetTaskStatus card wipLabel status = .error (.invalidTaskStatus status)
    ∧ trelloApplySetTaskStatus card wipLabel status = card
    ∧ jiraSetTaskStatus trans issue status = .error (.invalidTaskStatus status)
    ∧ jiraApplySetTaskStatus trans issue status = issue := by
  refine ⟨?_, ?_, ?_, ?_⟩ <;>
    simp [trelloSetTaskStatus, jiraSetTaskStatus, trelloApplySetTaskStatus,
      jiraApplySetTaskStatus, h]

/-- Witness for C5 at the concrete status "bogus" from the spec
scenario. -/
theorem c5_invalid_status_rejected_witness :
    trelloSetTaskStatus ⟨"c1", "T", "", [], false, []⟩ none "bogus"
        = .error (.invalidTaskStatus "bogus")
    ∧ trelloApplySetTaskStatus ⟨"c1", "T", "", [], false, []⟩ none "bogus"
        = ⟨"c1", "T", "", [], false, []⟩
    ∧ jiraSetTaskStatus (fun _ => jiraDefaultTransitions)
        ⟨"K-1", "T", adfDescription "d", "To Do"⟩ "bogus"
        = .error (.invalidTaskStatus "bogus")
    ∧ jiraApplySetTaskStatus (fun _ => jiraDefaultTransitions)
        ⟨"K-1", "T", adfDescription "d", "To Do"⟩ "bogus"
        = ⟨"K-1", "T", adfDescription "d", "To Do"⟩ :=
  c5_invalid_status_rejected ⟨"c1", "T", "", [], false, []⟩ none
    (fun _ => jiraDefaultTransitions) ⟨"K-1", "T", adfDescription "d", "To Do"⟩ "bogus"
    (by decide)

/-- Claim C2 counterexample: the issue-tracker backend's
update_task_description sends a PUT whose description is the ADF
wrapping of the new text only. Starting from an issue whose description
text is "old content", the updated description is exactly the new text
"new note": the prior content is not kept at its head, contradicting
the claim that the final description always contains the prior
description followed by a timestamped separator and the new text. -/
theorem c2_jira_overwrite_counterexample :
    extractDescriptionText
        (⟨"PROJ-1", "T", adfDescription "old content", "To Do"⟩ : JiraIssue).description
      = "old content"
    ∧ (jiraUpdateTaskDescription ⟨"PROJ-1", "T", adfDescription "old content", "To Do"⟩
        "new note").description = adfDescription "new note"
    ∧ extractDescriptionText (jiraUpdateTaskDescription
        ⟨"PROJ-1", "T", adfDescription "old content", "To Do"⟩ "new note").description
      = "new note"
    ∧ strStartsWith (extractDescriptionText (jiraUpdateTaskDescription
        ⟨"PROJ-1", "T", adfDescription "old content", "To Do"⟩ "new note").description)
        "old content" = false :=
  ⟨rfl, rfl, rfl, by decide⟩

/-- Claim C2 as amended: in the card-board backend
update_task_description is append-only and order-preserving — with a
prior description the result is the prior description followed by a
timestamped separator and the new text, and with no prior description
the result is the new text under a timestamped "Created on" header; the
issue-tracker backend instead replaces the description with a fresh ADF
document holding exactly the new text, for every issue and every prior
description. -/
theorem c2_description_append_only (existingDescription timestamp description : String)
    (card : Card) (issue : JiraIssue) :
    (existingDescription ≠ "" →
      trelloUpdatedDescription existingDescription timestamp description
        = existingDescription
          ++ ("\n\n--- Updated on " ++ timestamp ++ " ---\n" ++ description))
    ∧ (existingDescription = "" →
      trelloUpdatedDescription existingDescription timestamp description
        = "--- Created on " ++ timestamp ++ " ---\n" ++ description)
    ∧ (trelloUpdateTaskDescription card timestamp description).description
        = trelloUpdatedDescription card.description timestamp description
    ∧ (jiraUpdateTaskDescription issue description).description = adfDescription description
    ∧ extractDescriptionText (jiraUpdateTaskDescription issue description).description
        = description := by
  refine ⟨fun h => ?_, fun h => ?_, rfl, rfl, ?_⟩
  · simp [trelloUpdatedDescription, h, String.append_assoc]
  · simp [trelloUpdatedDescription, h]
  · rfl

/-- Witness for C2 (amended) at concrete inputs: a non-empty prior
description is kept at the head of the card-board result, and an empty
one yields the creation header. -/
theorem c2_description_append_only_witness :
    trelloUpdatedDescription "old" "2024-01-02 03:04:05" "new"
      = "old" ++ ("\n\n--- Updated on " ++ "2024-01-02 03:04:05" ++ " ---\n" ++ "new")
    ∧ trelloUpdatedDescription "" "2024-01-02 03:04:05" "new"
      = "--- Created on " ++ "2024-01-02 03:04:05" ++ " ---\n" ++ "new" :=
  ⟨(c2_description_append_only "old" "2024-01-02 03:04:05" "new" ⟨"c", "T", "", [], false, []⟩
      ⟨"K-1", "T", adfDescription "d", "To Do"⟩).1 (by decide),
   (c2_description_append_only "" "2024-01-02 03:04:05" "new" ⟨"c", "T", "", [], false, []⟩
      ⟨"K-1", "T", adfDescription "d", "To Do"⟩).2.1 rfl⟩

/-- Claim C3 evaluated at the failing input: a card whose well-known
checklist exists with every item checked. The card-board backend raises
ChecklistNotFoundError there (the scan falls through to the no-checklist
branch), while the issue-tracker backend raises
ChecklistItemNotFoundError as the claim and the interface docstring
state. -/
theorem c3_all_checked_raises_checklist_not_found :
    trelloFindNextUncheckedItem
        ⟨"c1", "T", "", [], false, [⟨"Checklist", [⟨"a", true⟩, ⟨"b", true⟩]⟩]⟩ "T"
      = .error (.checklistNotFound "Checklist" "T")
    ∧ jiraGetNextUncheckedChecklistItem [⟨"K-2", "a", "Done"⟩] "T"
      = .error (.checklistItemNotFound "none" "T") :=
  ⟨rfl, rfl⟩

/-- The internal status is "wip" exactly when the lowercased workflow
state is "in progress". -/
theorem mapJira_wip_iff (s : String) :
    mapJiraStatusToInternal s = "wip" ↔ strLower s = "in progress" := by
  constructor
  · intro h
    by_cases hA : strLower s = "to do"
    · simp [mapJiraStatusToInternal, hA] at h
    · by_cases hB : strLower s = "in progress"
      · exact hB
      · by_cases hC : strLower s = "done" <;>
          simp [mapJiraStatusToInternal, hA, hB, hC] at h
  · intro h
    simp [mapJiraStatusToInternal, h]

/-- The internal status is "done" exactly when the lowercased workflow
state is "done". -/
theorem mapJira_done_iff (s : String) :
    mapJiraStatusToInternal s = "done" ↔ strLower s = "done" := by
  constructor
  · intro h
    by_cases hA : strLower s = "to do"
    · simp [mapJiraStatusToInternal, hA] at h
    · by_cases hB : strLower s = "in progress"
      · simp [mapJiraStatusToInternal, hA, hB] at h
      · by_cases hC : strLower s = "done"
        · exact hC
        · simp [mapJiraStatusToInternal, hA, hB, hC] at h
  · intro h
    simp [mapJiraStatusToInternal, h]

/-- The Trello get_tasks loop under a "wip" or "done" filter returns the
filtered version of its "all" output. -/
theorem trelloFilterTasks_eq_filter_all (cards : List Card) (wipLabel : Option Label)
    (f : String) (hf : f = "wip" ∨ f = "done") :
    trelloFilterTasks cards wipLabel f
      = (trelloFilterTasks cards wipLabel "all").filter (fun t => t.status = f) := by
  induction cards with
  | nil => rfl
  | cons c cs ih =>
    rcases hf with hf | hf <;> subst hf <;>
      by_cases h : trelloGetTaskStatus c wipLabel = "wip" <;>
        by_cases h2 : trelloGetTaskStatus c wipLabel = "done" <;>
          simp [trelloFilterTasks, shouldIncludeTask, createTaskDict, h, h2, ih]

/-- Claim C6 counterexample: a project of 51 issues — 50 in state
"To Do" followed by one in state "In Progress". Every get_tasks query
requests at most 50 results, so the "all" query returns only the 50
todo issues while the "wip" query returns the in-progress issue: the
"wip" result is not the wip-status subset of the "all" result. -/
theorem c6_truncation_counterexample :
    jiraGetTasks (List.replicate 50 (⟨"K-0", "T", adfDescription "d", "To Do"⟩ : JiraIssue)
        ++ [⟨"K-51", "W", adfDescription "d", "In Progress"⟩]) "wip"
      ≠ (jiraGetTasks (List.replicate 50 (⟨"K-0", "T", adfDescription "d", "To Do"⟩ : JiraIssue)
        ++ [⟨"K-51", "W", adfDescription "d", "In Progress"⟩]) "all").filter
          (fun t => t.status = "wip") := by decide

/-- Claim C6 as amended: with the project (its cards / issues) held
fixed, get_tasks with the "wip" filter returns exactly the subset of
the "all" result whose derived status is wip, and likewise for "done":
unconditionally in the card-board backend, and in the issue tracker
whenever the project holds at most 50 issues (each query returns at
most the first 50 matches, so larger projects can break the subset
relation). An empty result is an ordinary value, not an error. -/
theorem c6_filter_consistency (boardList : Option (List Card)) (wipLabel : Option Label)
    (issues : List JiraIssue) (h : issues.length ≤ 50) :
    trelloGetTasks boardList wipLabel "wip"
      = (trelloGetTasks boardList wipLabel "all").filter (fun t => t.status = "wip")
    ∧ trelloGetTasks boardList wipLabel "done"
      = (trelloGetTasks boardList wipLabel "all").filter (fun t => t.status = "done")
    ∧ jiraGetTasks issues "wip" = (jiraGetTasks issues "all").filter (fun t => t.status = "wip")
    ∧ jiraGetTasks issues "done"
      = (jiraGetTasks issues "all").filter (fun t => t.status = "done") := by
  have hIP : strLower "In Progress" = "in progress" := by decide
  have hD : strLower "Done" = "done" := by decide
  have htake : issues.take 50 = issues := List.take_of_length_le h
  have htakeF : ∀ q : JiraIssue → Bool, (issues.filter q).take 50 = issues.filter q :=
    fun q => List.take_of_length_le (le_trans (List.length_filter_le q issues) h)
  have hallEq : jiraSearchByFilter issues "all" = issues := by
    simp [jiraSearchByFilter, htake]
  have hwipEq : jiraSearchByFilter issues "wip"
      = issues.filter (fun i => jqlStatusEq i.statusName "In Progress") := by
    simp [jiraSearchByFilter, htakeF]
  have hdoneEq : jiraSearchByFilter issues "done"
      = issues.filter (fun i => jqlStatusEq i.statusName "Done") := by
    simp [jiraSearchByFilter, htakeF]
  refine ⟨?_, ?_, ?_, ?_⟩
  · cases boardList with
    | none => rfl
    | some cards => exact trelloFilterTasks_eq_filter_all cards wipLabel "wip" (Or.inl rfl)
  · cases boardList with
    | none => rfl
    | some cards => exact trelloFilterTasks_eq_filter_all cards wipLabel "done" (Or.inr rfl)
  · simp only [jiraGetTasks, hwipEq, hallEq]
    rw [List.filter_map]
    apply congrArg
    apply List.filter_congr
    intro i _
    simp [jqlStatusEq, hIP, Function.comp, mapJira_wip_iff]
  · simp only [jiraGetTasks, hdoneEq, hallEq]
    rw [List.filter_map]
    apply congrArg
    apply List.filter_congr
    intro i _
    simp [jqlStatusEq, hD, Function.comp, mapJira_done_iff]

/-- Witness for C6 (amended) at concrete inputs: a one-issue project in
state "In Progress", and the empty card-board project. -/
theorem c6_filter_consistency_witness :
    trelloGetTasks none none "wip"
      = (trelloGetTasks none none "all").filter (fun t => t.status = "wip")
    ∧ trelloGetTasks none none "done"
      = (trelloGetTasks none none "all").filter (fun t => t.status = "done")
    ∧ jiraGetTasks [⟨"K-1", "W", adfDescription "d", "In Progress"⟩] "wip"
      = (jiraGetTasks [⟨"K-1", "W", adfDescription "d", "In Progress"⟩] "all").filter
          (fun t => t.status = "wip")
    ∧ jiraGetTasks [⟨"K-1", "W", adfDescription "d", "In Progress"⟩] "done"
      = (jiraGetTasks [⟨"K-1", "W", adfDescription "d", "In Progress"⟩] "all").filter
          (fun t => t.status = "done") :=
  c6_filter_consistency none none [⟨"K-1", "W", adfDescription "d", "In Progress"⟩]
    (by decide)

/-- Claim C7 counterexample: a project whose single issue sits in the
unrecognized workflow state "Blocked". Its derived status is "todo" —
neither wip nor done — yet the issue tracker's get_next_task, which
queries for the state "To Do" only, fails with NoAvailableTasks instead
of returning it. -/
theorem c7_counterexample :
    mapJiraStatusToInternal "Blocked" ≠ "wip"
    ∧ mapJiraStatusToInternal "Blocked" ≠ "done"
    ∧ jiraGetNextTask [⟨"K-1", "B", adfDescription "d", "Blocked"⟩] "PROJ"
        = .error (.noAvailableTasks "PROJ") :=
  ⟨by decide, by decide, rfl⟩

/-- Claim C7 as amended: the card-board backend returns the first card
in creation order whose derived status is neither wip nor done, and
fails with NoAvailableTasks when none qualifies; the issue tracker
returns the first task in priority-then-creation order whose workflow
state is "To Do" (case-insensitively) — tasks in unrecognized states,
though their derived status is todo, are not candidates — and fails
with NoAvailableTasks when no task is in state "To Do". -/
theorem c7_next_task_selection (cards : List Card) (wipLabel : Label)
    (issues : List JiraIssue) (projectName : String) :
    trelloFindNextAvailableCard cards wipLabel
      = cards.find? (fun c => trelloGetTaskStatus c (some wipLabel) ≠ "wip"
          ∧ trelloGetTaskStatus c (some wipLabel) ≠ "done")
    ∧ (trelloGetNextTask (some cards) wipLabel projectName
          = .error (.noAvailableTasks projectName)
        ↔ ∀ c ∈ cards, trelloGetTaskStatus c (some wipLabel) = "wip"
            ∨ trelloGetTaskStatus c (some wipLabel) = "done")
    ∧ (∀ i, jiraGetNextTask issues projectName = .ok i →
        i ∈ issues ∧ strLower i.statusName = "to do")
    ∧ (jiraGetNextTask issues projectName = .error (.noAvailableTasks projectName)
        ↔ ∀ i ∈ issues, strLower i.statusName ≠ "to do") := by
  have hTD : strLower "To Do" = "to do" := by decide
  have hpred : ∀ c : Card,
      (!(c.labels.any (fun l => l.id = wipLabel.id)) && !c.is_due_complete)
        = decide (trelloGetTaskStatus c (some wipLabel) ≠ "wip"
            ∧ trelloGetTaskStatus c (some wipLabel) ≠ "done") := by
    intro c
    by_cases hd : c.is_due_complete <;>
      by_cases ha : c.labels.any (fun l => l.id = wipLabel.id) <;>
        simp [trelloGetTaskStatus, trelloHasWip, hd, ha]
  have hfind : trelloFindNextAvailableCard cards wipLabel
      = cards.find? (fun c => trelloGetTaskStatus c (some wipLabel) ≠ "wip"
          ∧ trelloGetTaskStatus c (some wipLabel) ≠ "done") := by
    unfold trelloFindNextAvailableCard
    exact congrFun (congrArg List.find? (funext hpred)) cards
  have htrelloErr : trelloGetNextTask (some cards) wipLabel projectName
      = .error (.noAvailableTasks projectName)
      ↔ trelloFindNextAvailableCard cards wipLabel = none := by
    simp only [trelloGetNextTask]
    cases trelloFindNextAvailableCard cards wipLabel <;> simp
  have hjiraErr : jiraGetNextTask issues projectName
      = .error (.noAvailableTasks projectName)
      ↔ issues.find? (fun j => jqlStatusEq j.statusName "To Do") = none := by
    simp only [jiraGetNextTask]
    cases issues.find? (fun j => jqlStatusEq j.statusName "To Do") <;> simp
  refine ⟨hfind, ?_, ?_, ?_⟩
  · rw [htrelloErr, hfind, List.find?_eq_none]
    constructor
    · intro h c hc
      have := h c hc
      by_cases h1 : trelloGetTaskStatus c (some wipLabel) = "wip" <;> simp_all
    · intro h c hc
      simp only [decide_eq_true_eq]
      rcases h c hc with h1 | h1 <;> simp [h1]
  · intro i h
    unfold jiraGetNextTask at h
    cases hf : issues.find? (fun j => jqlStatusEq j.statusName "To Do") with
    | none => rw [hf] at h; simp at h
    | some j =>
      rw [hf] at h
      have hj : j = i := by simpa using h
      subst hj
      refine ⟨List.mem_of_find?_eq_some hf, ?_⟩
      have hp := List.find?_some hf
      simpa [jqlStatusEq, hTD] using hp
  · rw [hjiraErr, List.find?_eq_none]
    constructor
    · intro h i hi
      have := h i hi
      simpa [jqlStatusEq, hTD] using this
    · intro h i hi
      simpa [jqlStatusEq, hTD] using h i hi

/-- Witness for C7 (amended) at concrete inputs: with one "To Do" issue
the issue tracker returns it, and it is a member in state "to do". -/
theorem c7_next_task_selection_witness :
    (⟨"K-2", "T", adfDescription "d", "To Do"⟩ : JiraIssue)
        ∈ ([⟨"K-2", "T", adfDescription "d", "To Do"⟩] : List JiraIssue)
    ∧ strLower (⟨"K-2", "T", adfDescription "d", "To Do"⟩ : JiraIssue).statusName = "to do" :=
  (c7_next_task_selection [] ⟨"L1", "WIP"⟩ [⟨"K-2", "T", adfDescription "d", "To Do"⟩]
    "PROJ").2.2.1 ⟨"K-2", "T", adfDescription "d", "To Do"⟩ rfl

/-- After removing every label with the WIP id, the WIP-membership test
is false. -/
theorem any_filter_not_id (l : List Label) (wl : Label) :
    (l.filter (fun x => !(x.id = wl.id))).any (fun x => x.id = wl.id) = false := by
  induction l with
  | nil => rfl
  | cons x xs ih => by_cases h : x.id = wl.id <;> simp [h, ih]

/-- Removing labels with the WIP id is idempotent. -/
theorem filter_not_id_idem (l : List Label) (wl : Label) :
    (l.filter (fun x => !(x.id = wl.id))).filter (fun x => !(x.id = wl.id))
      = l.filter (fun x => !(x.id = wl.id)) := by
  induction l with
  | nil => rfl
  | cons x xs ih => by_cases h : x.id = wl.id <;> simp [h, ih]

/-- A label list with no label of the WIP id is unchanged by the removal. -/
theorem filter_not_id_of_any_false (l : List Label) (wl : Label)
    (h : l.any (fun x => x.id = wl.id) = false) :
    l.filter (fun x => !(x.id = wl.id)) = l := by
  induction l with
  | nil => rfl
  | cons x xs ih =>
    simp only [List.any_cons, Bool.or_eq_false_iff] at h
    simp only [decide_eq_false_iff_not] at h
    simp [h.1, ih h.2]

/-- The mutation sequence of `set_task_status` in the card-board backend
is idempotent on the card state: clearing both markers before applying
the target makes the second application a no-op. -/
theorem trelloSetTaskStatusCore_idem (card : Card) (wipLabel : Option Label) (status : String) :
    trelloSetTaskStatusCore (trelloSetTaskStatusCore card wipLabel status) wipLabel status
      = trelloSetTaskStatusCore card wipLabel status := by
  obtain ⟨cid, cname, cdesc, clabels, cdue, ccls⟩ := card
  cases wipLabel with
  | none =>
    cases cdue <;>
      by_cases h1 : status = "wip" <;> by_cases h2 : status = "done" <;>
        simp [trelloSetTaskStatusCore, setDueComplete, h1, h2]
  | some wl =>
    have hany := any_filter_not_id clabels wl
    have hidem := filter_not_id_idem clabels wl
    by_cases ha : clabels.any (fun l => l.id = wl.id) = true
    · cases cdue <;>
        by_cases h1 : status = "wip" <;> by_cases h2 : status = "done" <;>
          simp [trelloSetTaskStatusCore, setDueComplete, addLabel, removeLabel, h1, h2, ha,
            hany, hidem, List.filter_append, List.any_append]
    · have hself := filter_not_id_of_any_false clabels wl (by simpa using ha)
      cases cdue <;>
        by_cases h1 : status = "wip" <;> by_cases h2 : status = "done" <;>
          simp [trelloSetTaskStatusCore, setDueComplete, addLabel, removeLabel, h1, h2, ha,
            hany, hidem, hself, List.filter_append, List.any_append]

/-- Claim C4: for every existing task and status in the three-value
enum, set_task_status is idempotent in both backends. The card-board
backend first clears the WIP label and the due-complete flag, then
applies the target, so a second identical call returns the same card
state. The issue tracker, under a workflow offering from every state a
transition to each of the three canonical statuses, reaches the target
state on the first call and stays there on the second; the derived
status after either call is the requested one. -/
theorem c4_set_status_idempotent (card : Card) (wipLabel : Option Label)
    (trans : String → List JiraTransition) (issue : JiraIssue) (status : String)
    (hs : status ∈ (["todo", "wip", "done"] : List String))
    (htrans : ∀ s, trans s = jiraDefaultTransitions) :
    (∃ c1, trelloSetTaskStatus card wipLabel status = .ok c1
      ∧ trelloSetTaskStatus c1 wipLabel status = .ok c1)
    ∧ (∃ i1, jiraSetTaskStatus trans issue status = .ok i1
      ∧ jiraSetTaskStatus trans i1 status = .ok i1
      ∧ mapJiraStatusToInternal i1.statusName = status) := by
  obtain ⟨ikey, isum, idesc, istat⟩ := issue
  simp only [List.mem_cons, List.mem_singleton, List.not_mem_nil, or_false] at hs
  constructor
  · refine ⟨trelloSetTaskStatusCore card wipLabel status, ?_, ?_⟩
    · rcases hs with h | h | h <;> subst h <;> simp [trelloSetTaskStatus]
    · rcases hs with h | h | h <;> subst h <;>
        simp [trelloSetTaskStatus, trelloSetTaskStatusCore_idem]
  · rcases hs with h | h | h <;> subst h
    · refine ⟨⟨ikey, isum, idesc, "To Do"⟩, ?_, ?_, ?_⟩
      · unfold jiraSetTaskStatus
        rw [htrans]
        rfl
      · unfold jiraSetTaskStatus
        rw [htrans]
        rfl
      · exact (by decide : mapJiraStatusToInternal "To Do" = "todo")
    · refine ⟨⟨ikey, isum, idesc, "In Progress"⟩, ?_, ?_, ?_⟩
      · unfold jiraSetTaskStatus
        rw [htrans]
        rfl
      · unfold jiraSetTaskStatus
        rw [htrans]
        rfl
      · exact (by decide : mapJiraStatusToInternal "In Progress" = "wip")
    · refine ⟨⟨ikey, isum, idesc, "Done"⟩, ?_, ?_, ?_⟩
      · unfold jiraSetTaskStatus
        rw [htrans]
        rfl
      · unfold jiraSetTaskStatus
        rw [htrans]
        rfl
      · exact (by decide : mapJiraStatusToInternal "Done" = "done")

/-- Witness for C4 at concrete inputs: a due-complete card carrying the
WIP label, status "wip", and an issue in state "Done" under the default
workflow. -/
theorem c4_set_status_idempotent_witness :
    (∃ c1, trelloSetTaskStatus ⟨"c1", "T", "", [⟨"L1", "WIP"⟩], true, []⟩
        (some ⟨"L1", "WIP"⟩) "wip" = .ok c1
      ∧ trelloSetTaskStatus c1 (some ⟨"L1", "WIP"⟩) "wip" = .ok c1)
    ∧ (∃ i1, jiraSetTaskStatus (fun _ => jiraDefaultTransitions)
        ⟨"K-1", "T", adfDescription "d", "Done"⟩ "wip" = .ok i1
      ∧ jiraSetTaskStatus (fun _ => jiraDefaultTransitions) i1 "wip" = .ok i1
      ∧ mapJiraStatusToInternal i1.statusName = "wip") :=
  c4_set_status_idempotent ⟨"c1", "T", "", [⟨"L1", "WIP"⟩], true, []⟩ (some ⟨"L1", "WIP"⟩)
    (fun _ => jiraDefaultTransitions) ⟨"K-1", "T", adfDescription "d", "Done"⟩ "wip"
    (by decide) (fun _ => rfl)

/-- Claim C8 counterexample: a JIRA configuration whose api_token "abc"
is shorter than 10 characters, with every key present and every checked
value well-formed, passes validation — no InvalidConfiguration is
raised, because `JiraConfig.validate` applies no token-length check. -/
theorem c8_counterexample :
    JiraConfig.validate ⟨"http://example.com", "user", "abc", "PROJ", "jira"⟩ = .ok ()
    ∧ (⟨"http://example.com", "user", "abc", "PROJ", "jira"⟩ : JiraConfig).api_token.length
        < 10 :=
  ⟨rfl, by decide⟩

/-- Claim C8 as amended: validation is eager and missing keys are
reported precisely — each backend's validate raises
MissingConfiguration listing exactly the set of empty required keys, and
only when none is missing applies its own malformed-value checks: the
card-board config rejects an api_key or api_token shorter than 10
characters; the issue-tracker config rejects a server URL without an
http:// or https:// scheme and a project key shorter than 2 characters
(its username and api_token lengths are not checked). -/
theorem c8_config_validation (c : TrelloConfig) (j : JiraConfig) :
    ("api_key" ∈ trelloMissingKeys c ↔ c.api_key = "")
    ∧ ("api_token" ∈ trelloMissingKeys c ↔ c.api_token = "")
    ∧ ("board_name" ∈ trelloMissingKeys c ↔ c.board_name = "")
    ∧ (trelloMissingKeys c ≠ [] → TrelloConfig.validate c
        = .error (.missingConfiguration c.service_name (trelloMissingKeys c)))
    ∧ (trelloMissingKeys c = [] → c.api_key.length < 10 → TrelloConfig.validate c
        = .error (.invalidConfiguration c.service_name "api_key" "API key too short"))
    ∧ (trelloMissingKeys c = [] → ¬ c.api_key.length < 10 → c.api_token.length < 10 →
        TrelloConfig.validate c
          = .error (.invalidConfiguration c.service_name "api_token" "API token too short"))
    ∧ (trelloMissingKeys c = [] → ¬ c.api_key.length < 10 → ¬ c.api_token.length < 10 →
        TrelloConfig.validate c = .ok ())
    ∧ ("server_url" ∈ jiraMissingKeys j ↔ j.server_url = "")
    ∧ ("username" ∈ jiraMissingKeys j ↔ j.username = "")
    ∧ ("api_token" ∈ jiraMissingKeys j ↔ j.api_token = "")
    ∧ ("project_key" ∈ jiraMissingKeys j ↔ j.project_key = "")
    ∧ (jiraMissingKeys j ≠ [] → JiraConfig.validate j
        = .error (.missingConfiguration j.service_name (jiraMissingKeys j)))
    ∧ (jiraMissingKeys j = [] →
        (strStartsWith j.server_url "http://" || strStartsWith j.server_url "https://")
          = false →
        JiraConfig.validate j = .error (.invalidConfiguration j.service_name "server_url"
          "Must start with http:// or https://"))
    ∧ (jiraMissingKeys j = [] →
        (strStartsWith j.server_url "http://" || strStartsWith j.server_url "https://")
          = true →
        j.project_key.length < 2 →
        JiraConfig.validate j = .error (.invalidConfiguration j.service_name "project_key"
          "Project key too short"))
    ∧ (jiraMissingKeys j = [] →
        (strStartsWith j.server_url "http://" || strStartsWith j.server_url "https://")
          = true →
        ¬ j.project_key.length < 2 → JiraConfig.validate j = .ok ()) := by
  refine ⟨?_, ?_, ?_, fun h => ?_, fun h h2 => ?_, fun h h2 h3 => ?_, fun h h2 h3 => ?_,
    ?_, ?_, ?_, ?_, fun h => ?_, fun h h2 => ?_, fun h h2 h3 => ?_, fun h h2 h3 => ?_⟩
  · unfold trelloMissingKeys
    by_cases h1 : c.api_key = "" <;> by_cases h2 : c.api_token = "" <;>
      by_cases h3 : c.board_name = "" <;> simp [h1, h2, h3]
  · unfold trelloMissingKeys
    by_cases h1 : c.api_key = "" <;> by_cases h2 : c.api_token = "" <;>
      by_cases h3 : c.board_name = "" <;> simp [h1, h2, h3]
  · unfold trelloMissingKeys
    by_cases h1 : c.api_key = "" <;> by_cases h2 : c.api_token = "" <;>
      by_cases h3 : c.board_name = "" <;> simp [h1, h2, h3]
  · simp [TrelloConfig.validate, h]
  · simp [TrelloConfig.validate, h, h2]
  · simp [TrelloConfig.validate, h, h2, h3]
  · simp [TrelloConfig.validate, h, h2, h3]
  · unfold jiraMissingKeys
    by_cases h1 : j.server_url = "" <;> by_cases h2 : j.username = "" <;>
      by_cases h3 : j.api_token = "" <;> by_cases h4 : j.project_key = "" <;>
        simp [h1, h2, h3, h4]
  · unfold jiraMissingKeys
    by_cases h1 : j.server_url = "" <;> by_cases h2 : j.username = "" <;>
      by_cases h3 : j.api_token = "" <;> by_cases h4 : j.project_key = "" <;>
        simp [h1, h2, h3, h4]
  · unfold jiraMissingKeys
    by_cases h1 : j.server_url = "" <;> by_cases h2 : j.username = "" <;>
      by_cases h3 : j.api_token = "" <;> by_cases h4 : j.project_key = "" <;>
        simp [h1, h2, h3, h4]
  · unfold jiraMissingKeys
    by_cases h1 : j.server_url = "" <;> by_cases h2 : j.username = "" <;>
      by_cases h3 : j.api_token = "" <;> by_cases h4 : j.project_key = "" <;>
        simp [h1, h2, h3, h4]
  · simp [JiraConfig.validate, h]
  · simp [JiraConfig.validate, h, h2]
  · simp [JiraConfig.validate, h, h2, h3]
  · simp [JiraConfig.validate, h, h2, h3]

/-- Witness for C8 (amended) at concrete configurations: an empty
api_key is reported as exactly the missing key; a 5-character Trello
api_token is rejected as too short; a scheme-less JIRA server URL is
rejected; a well-formed JIRA config with a 3-character token passes. -/
theorem c8_config_validation_witness :
    TrelloConfig.validate ⟨"", "tok4567890123", "Board", "trello"⟩
      = .error (.missingConfiguration "trello" ["api_key"])
    ∧ TrelloConfig.validate ⟨"key4567890123", "short", "Board", "trello"⟩
      = .error (.invalidConfiguration "trello" "api_token" "API token too short")
    ∧ JiraConfig.validate ⟨"example.com", "user", "tok", "PROJ", "jira"⟩
      = .error (.invalidConfiguration "jira" "server_url" "Must start with http:// or https://")
    ∧ JiraConfig.validate ⟨"https://example.com", "user", "tok", "PROJ", "jira"⟩ = .ok () :=
  ⟨(c8_config_validation ⟨"", "tok4567890123", "Board", "trello"⟩
      ⟨"https://example.com", "user", "tok", "PROJ", "jira"⟩).2.2.2.1 (by decide),
   (c8_config_validation ⟨"key4567890123", "short", "Board", "trello"⟩
      ⟨"https://example.com", "user", "tok", "PROJ", "jira"⟩).2.2.2.2.2.1
      (by decide) (by decide) (by decide),
   (c8_config_validation ⟨"key4567890123", "tok4567890123", "Board", "trello"⟩
      ⟨"example.com", "user", "tok", "PROJ", "jira"⟩).2.2.2.2.2.2.2.2.2.2.2.2.1
      (by decide) (by decide),
   (c8_config_validation ⟨"key4567890123", "tok4567890123", "Board", "trello"⟩
      ⟨"https://example.com", "user", "tok", "PROJ", "jira"⟩).2.2.2.2.2.2.2.2.2.2.2.2.2.2
      (by decide) (by decide) (by decide)⟩

/-- The per-item guarantee the checklist operations preserve: the item
keeps its name and a set checked flag is never cleared. -/
def ChecksPreserved (a b : DChecklistItem) : Prop :=
  a.name = b.name ∧ (a.checked = true → b.checked = true)

/-- `ChecksPreserved` for the raw Trello checklist items. -/
def TChecksPreserved (a b : TChecklistItem) : Prop :=
  a.name = b.name ∧ (a.checked = true → b.checked = true)

/-- Every item list is `ChecksPreserved`-related to itself. -/
theorem checksPreserved_refl (l : List DChecklistItem) :
    List.Forall₂ ChecksPreserved l l := by
  induction l with
  | nil => constructor
  | cons a l ih => exact List.Forall₂.cons ⟨rfl, fun h => h⟩ ih

/-- Every raw Trello item list is `TChecksPreserved`-related to itself. -/
theorem tchecksPreserved_refl (l : List TChecklistItem) :
    List.Forall₂ TChecksPreserved l l := by
  induction l with
  | nil => constructor
  | cons a l ih => exact List.Forall₂.cons ⟨rfl, fun h => h⟩ ih

/-- Claim C9 counterexample: in the issue-tracker backend a checklist
item is a subtask and its checked state is "workflow state Done". The
subtask "item-a" in state "Done" is checked — the next-unchecked query
finds nothing. The exposed operation set_task_status("PROJ", "item-a",
"todo") searches `project AND summary ~ title`, which reaches the
subtask (the parent "T" does not match), and transitions it to
"To Do" — after which the very same item is returned as unchecked
again. A checked item was uncompleted through an exposed operation. -/
theorem c9_uncheck_counterexample :
    jiraGetNextUncheckedChecklistItem [⟨"K-10", "item-a", "Done"⟩] "T"
      = .error (.checklistItemNotFound "none" "T")
    ∧ jiraSetTaskStatusByTitle (fun _ => jiraDefaultTransitions)
        [⟨"K-1", "T", adfDescription "d", "To Do"⟩,
         ⟨"K-10", "item-a", adfDescription "d", "Done"⟩] "PROJ" "item-a" "todo"
      = .ok ⟨"K-10", "item-a", adfDescription "d", "To Do"⟩
    ∧ jiraGetNextUncheckedChecklistItem [⟨"K-10", "item-a", "To Do"⟩] "T"
      = .ok ⟨"item-a", false, "K-10"⟩ :=
  ⟨rfl, rfl, rfl⟩

/-- Claim C9 as amended: the checklist operations themselves are
one-directional — the domain model's `complete_item` sets the first
name-matching item's flag to true and touches nothing else, `add_item`
appends a fresh unchecked item and leaves every existing item
untouched, the card-board backend's `set_checklist_item(name, True)`
behaves like `complete_item` on the raw items, and the issue tracker's
complete_checklist_item only ever transitions the matched subtask into
"Done" (leaving it checked); `get_next_unchecked_item` is read-only by
its type. But the invariant does not extend to every exposed operation:
in the issue tracker, set_task_status on a title matching a subtask's
summary can transition that subtask out of "Done", unchecking it. -/
theorem c9_checklist_ops_one_directional (items : List DChecklistItem) (itemName : String)
    (cl : DChecklist) (titems : List TChecklistItem)
    (trans : String → List JiraTransition) (subtasks : List JiraSubtask) (title : String) :
    List.Forall₂ ChecksPreserved items (completeItemAux items itemName).1
    ∧ (DChecklist.complete_item cl itemName).1.items = (completeItemAux cl.items itemName).1
    ∧ (cl.add_item itemName).items
        = cl.items ++ [{ name := itemName, checked := false, id := none }]
    ∧ List.Forall₂ TChecksPreserved titems (setChecklistItemAux titems itemName true)
    ∧ (∀ st2, jiraCompleteChecklistItem trans subtasks title itemName = .ok st2 →
        jqlStatusEq st2.statusName "Done" = true) := by
  refine ⟨?_, rfl, rfl, ?_, ?_⟩
  · induction items with
    | nil => constructor
    | cons it rest ih =>
      by_cases h : it.name = itemName
      · simp only [completeItemAux, h, if_pos]
        exact List.Forall₂.cons ⟨h, fun _ => rfl⟩ (checksPreserved_refl rest)
      · simp only [completeItemAux, h, if_neg, not_false_iff]
        exact List.Forall₂.cons ⟨rfl, fun hc => hc⟩ ih
  · induction titems with
    | nil => constructor
    | cons it rest ih =>
      by_cases h : it.name = itemName
      · simp only [setChecklistItemAux, h, if_pos]
        exact List.Forall₂.cons ⟨h, fun _ => rfl⟩ (tchecksPreserved_refl rest)
      · simp only [setChecklistItemAux, h, if_neg, not_false_iff]
        exact List.Forall₂.cons ⟨rfl, fun hc => hc⟩ ih
  · intro st2 hok
    unfold jiraCompleteChecklistItem at hok
    cases hf : subtasks.find? (fun st => strContains st.summary itemName) with
    | none => rw [hf] at hok; simp at hok
    | some st =>
      rw [hf] at hok
      dsimp only at hok
      cases ht : findTransition (trans st.statusName) "Done" with
      | none => rw [ht] at hok; simp at hok
      | some t =>
        rw [ht] at hok
        dsimp only at hok
        have hst2 : ({ st with statusName := t.toName } : JiraSubtask) = st2 := by
          simpa using hok
        unfold findTransition at ht
        have hp := List.find?_some ht
        have hlow : strLower t.toName = strLower "Done" := of_decide_eq_true hp
        subst hst2
        simp [jqlStatusEq, hlow]

/-- Witness for C9 (amended) at concrete inputs: completing item "a" in
a list holding a checked "a" and an unchecked "b" keeps every checked
flag set, and the issue tracker's complete_checklist_item leaves the
matched subtask in state "Done" (checked). -/
theorem c9_checklist_ops_one_directional_witness :
    List.Forall₂ ChecksPreserved [⟨"a", true, none⟩, ⟨"b", false, none⟩]
      (completeItemAux [⟨"a", true, none⟩, ⟨"b", false, none⟩] "a").1
    ∧ (DChecklist.complete_item ⟨"Checklist", [], none⟩ "a").1.items
        = (completeItemAux (⟨"Checklist", [], none⟩ : DChecklist).items "a").1
    ∧ (DChecklist.add_item ⟨"Checklist", [], none⟩ "a").items
        = (⟨"Checklist", [], none⟩ : DChecklist).items
            ++ [{ name := "a", checked := false, id := none }]
    ∧ List.Forall₂ TChecksPreserved [⟨"a", true⟩]
        (setChecklistItemAux [⟨"a", true⟩] "a" true)
    ∧ jqlStatusEq (⟨"K-10", "item-a", "Done"⟩ : JiraSubtask).statusName "Done" = true :=
  ⟨(c9_checklist_ops_one_directional [⟨"a", true, none⟩, ⟨"b", false, none⟩] "a"
      ⟨"Checklist", [], none⟩ [⟨"a", true⟩] (fun _ => jiraDefaultTransitions)
      [⟨"K-10", "item-a", "Done"⟩] "T").1,
   (c9_checklist_ops_one_directional [⟨"a", true, none⟩, ⟨"b", false, none⟩] "a"
      ⟨"Checklist", [], none⟩ [⟨"a", true⟩] (fun _ => jiraDefaultTransitions)
      [⟨"K-10", "item-a", "Done"⟩] "T").2.1,
   (c9_checklist_ops_one_directional [⟨"a", true, none⟩, ⟨"b", false, none⟩] "a"
      ⟨"Checklist", [], none⟩ [⟨"a", true⟩] (fun _ => jiraDefaultTransitions)
      [⟨"K-10", "item-a", "Done"⟩] "T").2.2.1,
   (c9_checklist_ops_one_directional [⟨"a", true, none⟩, ⟨"b", false, none⟩] "a"
      ⟨"Checklist", [], none⟩ [⟨"a", true⟩] (fun _ => jiraDefaultTransitions)
      [⟨"K-10", "item-a", "Done"⟩] "T").2.2.2.1,
   (c9_checklist_ops_one_directional [⟨"a", true, none⟩, ⟨"b", false, none⟩] "a"
      ⟨"Checklist", [], none⟩ [⟨"a", true⟩] (fun _ => jiraDefaultTransitions)
      [⟨"K-10", "item-a", "Done"⟩] "T").2.2.2.2 ⟨"K-10", "item-a", "Done"⟩ rfl⟩

end TrelloTM
